import Mathlib

/-
Verification model of the rate-limit admission and audit-logging subsystem of
the LWM Course Guide application (src/app.py) and of its database monitor
script (src/db_monitor.py).

Conventions of the embedding:

* Timestamps are integers counting seconds.  datetime.now() becomes an
  integer parameter now.

* The rate_limits table stores its window timestamps as TIMESTAMP WITH TIME
  ZONE (src/app.py lines 114-115).  psycopg2 returns such columns as
  timezone-aware datetime objects, while now = datetime.now() (line 250) is
  naive, and Python raises TypeError when subtracting an aware datetime from
  a naive one.  Hence every check_rate_limit call that finds an existing
  record raises at line 273, before any window comparison, limit check or
  UPDATE; the except handler at line 302 turns this into the degraded
  admission.  The reset, deny and increment block of lines 272-298 is
  therefore dead code, and the embedding gives the existing-record branch
  that error behaviour directly.

* The rate_limits table is keyed by user_id and every statement proved below
  concerns a single identity, so the store is modelled as the row of one
  identity: Option RateRecord.  SELECT, INSERT and UPDATE all carry
  WHERE user_id = %s (or VALUES with that key), so no other row is read or
  written by the modelled code.

* Store interactions that can raise are driven by a fault function
  fails : StoreOp -> Bool; noFaults is the fault-free run.  The cleanup calls
  conn.rollback() and cursor.close() on a bound cursor are modelled as not
  failing (single-fault model).  Referencing cursor in the finally block when
  the assignment cursor = conn.cursor(...) itself raised is not a store
  fault: it deterministically raises UnboundLocalError in Python, and the
  model reproduces that control flow exactly (see check_rate_limit below).
-/

namespace LWM

/-- Configuration constants, src/app.py lines 29-30:
max_requests_per_hour = 10. -/
def max_requests_per_hour : Nat := 10

/-- Configuration constant, src/app.py line 30: max_requests_per_day = 50. -/
def max_requests_per_day : Nat := 50

/-- Pool lower bound, src/app.py line 70: minconn=1. -/
def pool_minconn : Nat := 1

/-- Pool upper bound, src/app.py line 71: maxconn=20. -/
def pool_maxconn : Nat := 20

/-- One row of the rate_limits table (src/app.py lines 109-119) for a fixed
user_id: the two counters and the two window-start timestamps. -/
structure RateRecord where
  hourly_count : Nat
  daily_count : Nat
  last_hour_reset : Int
  last_day_reset : Int
deriving DecidableEq

/-- The row of the rate_limits table belonging to the identity under
consideration; none when no record exists yet. -/
abbrev RateRow := Option RateRecord

/-- The store operations check_rate_limit can start on an acquired
connection, in source order: conn.cursor(...) (line 249), the SELECT with
fetchone (lines 253-254), the INSERT for a new user (lines 258-261), the
UPDATE of lines 292-296, and conn.commit (line 262 or 298).  The UPDATE
statement exists in the source but is never reached at runtime: the
TypeError at line 273 precedes it on every existing-record call. -/
inductive StoreOp where
  | cursorCreate
  | selectRow
  | insertRow
  | updateRow
  | commitTxn
deriving DecidableEq

/-- How many times each operation in the list was started. -/
def attemptsOf (l : List StoreOp) : StoreOp → Nat :=
  fun op => l.count op

/-- The observable outcome of one check_rate_limit call.
result is the returned pair, or none when an exception escapes the function
to its caller.  row is the final durable row for this identity.  released
records whether return_db_connection(conn) ran for the acquired handle
(src/app.py line 308).  attempts counts how many times each store operation
was started.  rwErrored is true exactly when an executed read or write
operation (SELECT, INSERT, UPDATE, or commit) raised; the in-process
TypeError of line 273 is not a store operation error and does not set it. -/
structure RLRun where
  result : Option (Bool × String)
  row : RateRow
  released : Bool
  attempts : StoreOp → Nat
  rwErrored : Bool

/-- Whether the call came back to its caller with allowed = True. -/
def RLRun.admitted (r : RLRun) : Bool :=
  match r.result with
  | some (b, _) => b
  | none => false

/-- The fault-free store. -/
def noFaults : StoreOp → Bool := fun _ => false

/-- check_rate_limit, src/app.py lines 242-308, for one identity.

conn is false when get_db_connection returned None (pool absent or getconn
failed, lines 79-87); the function then returns the degraded admission
before entering the try block (lines 245-246), with nothing acquired and
nothing to release.

Inside the try block the store operations run in source order and any of
them may raise, driven by fails.  A raised error is caught by the
except Exception handler (lines 302-305), which rolls back and returns the
degraded admission; the finally block (lines 306-308) then closes the cursor
and returns the connection to the pool.

When the SELECT finds an existing record, line 273 subtracts the
timezone-aware last_hour_reset read from the timestamptz column from the
naive datetime.now(), which deterministically raises TypeError before any
window comparison, limit check, or UPDATE.  The except handler catches it,
rolls back, and returns the degraded admission; the finally block closes the
bound cursor and releases the handle.  So every existing-record call returns
(True, "Rate limit check failed - allowing request") and writes nothing.

One path is special: when conn.cursor(...) itself raises (line 249), the
local variable cursor was never assigned, so cursor.close() in the finally
block (line 307) raises UnboundLocalError; that exception replaces the
pending return and propagates to the caller, and return_db_connection(conn)
on line 308 never runs.  On that path result is none and released is false. -/
def check_rate_limit (fails : StoreOp → Bool) (conn : Bool) (row : RateRow) (now : Int) :
    RLRun :=
  if conn = false then
    { result := some (true, "Database unavailable - allowing request"), row := row,
      released := false, attempts := attemptsOf [], rwErrored := false }
  else if fails .cursorCreate then
    { result := none, row := row, released := false,
      attempts := attemptsOf [.cursorCreate], rwErrored := false }
  else if fails .selectRow then
    { result := some (true, "Rate limit check failed - allowing request"), row := row,
      released := true, attempts := attemptsOf [.cursorCreate, .selectRow],
      rwErrored := true }
  else
    match row with
    | none =>
      if fails .insertRow then
        { result := some (true, "Rate limit check failed - allowing request"), row := row,
          released := true,
          attempts := attemptsOf [.cursorCreate, .selectRow, .insertRow],
          rwErrored := true }
      else if fails .commitTxn then
        { result := some (true, "Rate limit check failed - allowing request"), row := row,
          released := true,
          attempts := attemptsOf [.cursorCreate, .selectRow, .insertRow, .commitTxn],
          rwErrored := true }
      else
        { result := some (true, "First request"), row := some ⟨1, 1, now, now⟩,
          released := true,
          attempts := attemptsOf [.cursorCreate, .selectRow, .insertRow, .commitTxn],
          rwErrored := false }
    | some _ =>
      { result := some (true, "Rate limit check failed - allowing request"), row := row,
        released := true, attempts := attemptsOf [.cursorCreate, .selectRow],
        rwErrored := false }

/-- A fault function that fails only conn.cursor creation. -/
def failCursorOnly : StoreOp → Bool :=
  fun op => match op with
  | .cursorCreate => true
  | _ => false

/-- A fault function that fails only the SELECT. -/
def failSelectOnly : StoreOp → Bool :=
  fun op => match op with
  | .selectRow => true
  | _ => false

/-- n fault-free sequential check_rate_limit calls for a fresh identity, all
made at time 0 (so all within one hour): the final row and the number of
calls that came back allowed.  The allowed flag counts both the normal
first-request admit and the degraded admits that every later call produces
through the TypeError of line 273. -/
def runSeq : Nat → RateRow × Nat
  | 0 => (none, 0)
  | n + 1 =>
    let p := runSeq n
    let run := check_rate_limit noFaults true p.1 0
    (run.row, p.2 + (if run.admitted then 1 else 0))

/-- State of one in-flight check_rate_limit call in the interleaving model:
snap is the row its SELECT returned (none while the SELECT has not run yet),
res is its returned pair once finished. -/
structure ThreadSt where
  snap : Option RateRow
  res : Option (Bool × String)

/-- A call that has not started yet. -/
def threadInit : ThreadSt := { snap := none, res := none }

/-- One scheduler step of the interleaving model: run the next step of call
tid.  Each call performs its SELECT round-trip (lines 253-254) and then its
second step, whose effect depends on the snapshot the SELECT returned.

A call whose snapshot was empty executes the INSERT of lines 258-261; if
the row meanwhile exists, the primary-key conflict raises, the except
handler returns the degraded admission (line 305), and the row is
unchanged.  A call whose snapshot held a record raises TypeError at
line 273 (naive datetime.now() minus the timezone-aware timestamptz) before
reaching any limit check or the UPDATE; the except handler returns the
degraded admission and the row is unchanged.  No call ever writes after
the initial INSERT and no call is ever denied. -/
def concStep (now : Int) (s : RateRow × (Nat → ThreadSt)) (tid : Nat) :
    RateRow × (Nat → ThreadSt) :=
  let row := s.1
  let ths := s.2
  let th := ths tid
  match th.snap with
  | none =>
    (row, fun t => if t = tid then { snap := some row, res := none } else ths t)
  | some snapshot =>
    match th.res with
    | some _ => s
    | none =>
      match snapshot with
      | none =>
        match row with
        | some _ =>
          (row, fun t => if t = tid then
            { snap := th.snap, res := some (true, "Rate limit check failed - allowing request") }
            else ths t)
        | none =>
          (some ⟨1, 1, now, now⟩, fun t => if t = tid then
            { snap := th.snap, res := some (true, "First request") } else ths t)
      | some _ =>
        (row, fun t => if t = tid then
          { snap := th.snap, res := some (true, "Rate limit check failed - allowing request") }
          else ths t)

/-- Run a schedule (a list of thread ids, each occurrence performing the next
round-trip of that call) against a fresh identity. -/
def runSchedule (now : Int) (sched : List Nat) : RateRow × (Nat → ThreadSt) :=
  sched.foldl (concStep now) (none, fun _ => threadInit)

/-- How many of the calls 0..n-1 came back with allowed = True. -/
def admittedCount (ths : Nat → ThreadSt) (n : Nat) : Nat :=
  (List.range n).countP (fun t => ((ths t).res.map Prod.fst).getD false)

/-- A schedule for eleven concurrent calls (hourly limit 10, K = 1) to a
fresh identity: calls 0 through 8 each run to completion, then calls 9 and
10 interleave their two steps. -/
def c1Schedule : List Nat :=
  [0, 0, 1, 1, 2, 2, 3, 3, 4, 4, 5, 5, 6, 6, 7, 7, 8, 8, 9, 10, 9, 10]

/-- The store operations log_analytics performs on an acquired connection,
src/app.py lines 381-413: conn.cursor() (line 388), the INSERT of the event
row (lines 392-402), and conn.commit (line 404). -/
inductive LAOp where
  | cursorCreate
  | insertRow
  | commitTxn
deriving DecidableEq

/-- The observable outcome of one log_analytics call: the returned flag
(none when an exception escapes the function), and whether
return_db_connection ran for the acquired handle. -/
structure LARun where
  result : Option Bool
  released : Bool
deriving DecidableEq

/-- The fault-free store for log_analytics. -/
def noFaultsLA : LAOp → Bool := fun _ => false

/-- A fault function for log_analytics that fails only cursor creation. -/
def failCursorLA : LAOp → Bool :=
  fun op => match op with
  | .cursorCreate => true
  | _ => false

/-- A fault function for log_analytics that fails only the INSERT. -/
def failInsertLA : LAOp → Bool :=
  fun op => match op with
  | .insertRow => true
  | _ => false

/-- log_analytics, src/app.py lines 381-413.  conn is false when
get_db_connection returned None (the function then returns False at
line 385 without acquiring anything).  Errors raised by the INSERT or the
commit are caught by the except handler (lines 407-410) which rolls back and
returns False; the finally block (lines 411-413) closes the cursor and
releases the handle.  As in check_rate_limit, when conn.cursor() itself
raises (line 388) the finally block references the unbound local cursor,
raising UnboundLocalError: the pending return False is discarded, the
exception propagates to the caller, and the handle is never released. -/
def log_analytics (fails : LAOp → Bool) (conn : Bool) : LARun :=
  if conn = false then
    { result := some false, released := false }
  else if fails .cursorCreate then
    { result := none, released := false }
  else if fails .insertRow then
    { result := some false, released := true }
  else if fails .commitTxn then
    { result := some false, released := true }
  else
    { result := some true, released := true }

/-- Environment of the db_monitor script: whether connection configuration
(DATABASE_URL or the PG* variables, src/db_monitor.py lines 20-31) is
present, and whether the store is reachable when psycopg2.connect is
attempted. -/
structure MonitorEnv where
  configPresent : Bool
  storeReachable : Bool
deriving DecidableEq

/-- DatabaseMonitor.get_connection, src/db_monitor.py lines 46-52: a failed
connect is caught, printed, and turned into None. -/
def get_connection (env : MonitorEnv) : Option Unit :=
  if env.storeReachable then some () else none

/-- get_daily_stats, src/db_monitor.py lines 54-103: returns None when no
connection could be made (line 57-58) or a query failed (lines 98-100),
otherwise its results; it never raises.  The tabular contents are not
relevant to any claim, so results are abstracted to Unit. -/
def get_daily_stats (env : MonitorEnv) : Option Unit :=
  (get_connection env).map fun _ => ()

/-- get_user_profiles, src/db_monitor.py lines 105-157; same error shape as
get_daily_stats. -/
def get_user_profiles (env : MonitorEnv) : Option Unit :=
  (get_connection env).map fun _ => ()

/-- get_popular_career_fields, src/db_monitor.py lines 159-206. -/
def get_popular_career_fields (env : MonitorEnv) : Option Unit :=
  (get_connection env).map fun _ => ()

/-- get_recent_recommendations, src/db_monitor.py lines 208-258. -/
def get_recent_recommendations (env : MonitorEnv) : Option Unit :=
  (get_connection env).map fun _ => ()

/-- get_rate_limit_stats, src/db_monitor.py lines 260-314. -/
def get_rate_limit_stats (env : MonitorEnv) : Option Unit :=
  (get_connection env).map fun _ => ()

/-- get_error_analysis, src/db_monitor.py lines 316-361. -/
def get_error_analysis (env : MonitorEnv) : Option Unit :=
  (get_connection env).map fun _ => ()

/-- run_full_report, src/db_monitor.py lines 363-378: runs every report in
turn; each one swallows its own store failures. -/
def run_full_report (env : MonitorEnv) : Option Unit :=
  let _ := get_daily_stats env
  let _ := get_popular_career_fields env
  let _ := get_rate_limit_stats env
  let _ := get_error_analysis env
  let _ := get_recent_recommendations env
  get_user_profiles env

/-- main, src/db_monitor.py lines 380-418, returning the process exit code
and the data the dispatched command produced (none when the store was
unreachable or the command unknown).  Constructing DatabaseMonitor raises
ValueError when no connection configuration is found (line 44); that
exception is uncaught, so the process exits with code 1.  Every command
branch catches its own store errors and falls off the end of main, so the
process exits with code 0 whether or not the store could be reached.
Numeric arguments are taken as well formed (a malformed int literal would
raise at lines 390-399 and is outside this model, as is every claim about
it). -/
def monitor_main (env : MonitorEnv) (argv : List String) : Nat × Option Unit :=
  if env.configPresent = false then
    (1, none)
  else
    match argv with
    | [] => (0, run_full_report env)
    | cmd :: _ =>
      if cmd = "daily" then (0, get_daily_stats env)
      else if cmd = "users" then (0, get_user_profiles env)
      else if cmd = "careers" then (0, get_popular_career_fields env)
      else if cmd = "recommendations" then (0, get_recent_recommendations env)
      else if cmd = "rates" then (0, get_rate_limit_stats env)
      else if cmd = "errors" then (0, get_error_analysis env)
      else (0, none)

/-! Helper lemmas. -/

/-- check_rate_limit starts every store operation at most once: there is no
retry loop anywhere in src/app.py lines 242-308. -/
theorem attempts_le_one (fails : StoreOp → Bool) (conn : Bool) (row : RateRow) (now : Int)
    (op : StoreOp) : (check_rate_limit fails conn row now).attempts op ≤ 1 := by
  unfold check_rate_limit
  repeat' split
  all_goals dsimp only
  all_goals cases op <;> decide

/-- On every run whose rwErrored flag is set, the except handler produced the
degraded admission and the finally block released the handle. -/
theorem rw_error_degraded (fails : StoreOp → Bool) (conn : Bool) (row : RateRow) (now : Int)
    (h : (check_rate_limit fails conn row now).rwErrored = true) :
    (check_rate_limit fails conn row now).result
        = some (true, "Rate limit check failed - allowing request")
    ∧ (check_rate_limit fails conn row now).released = true := by
  cases conn with
  | false => simp [check_rate_limit] at h
  | true =>
    by_cases h1 : fails StoreOp.cursorCreate
    · simp [check_rate_limit, h1] at h
    · by_cases h2 : fails StoreOp.selectRow
      · exact ⟨by simp [check_rate_limit, h1, h2], by simp [check_rate_limit, h1, h2]⟩
      · cases row with
        | none =>
          by_cases h3 : fails StoreOp.insertRow
          · exact ⟨by simp [check_rate_limit, h1, h2, h3],
              by simp [check_rate_limit, h1, h2, h3]⟩
          · by_cases h4 : fails StoreOp.commitTxn
            · exact ⟨by simp [check_rate_limit, h1, h2, h3, h4],
                by simp [check_rate_limit, h1, h2, h3, h4]⟩
            · simp [check_rate_limit, h1, h2, h3, h4] at h
        | some record =>
          simp [check_rate_limit, h1, h2] at h

/-- Every fault-free run after the first leaves the first-request row in
place and comes back allowed: the first call inserts (1, 1, 0, 0), and each
later call finds the record and fails open through the TypeError of
line 273 without writing. -/
theorem runSeq_all_admit : ∀ n : Nat, runSeq (n + 1) = (some ⟨1, 1, 0, 0⟩, n + 1)
  | 0 => by decide
  | n + 1 => by
    have ih := runSeq_all_admit n
    show runSeq (n + 1 + 1) = _
    rw [runSeq, ih]
    rfl

/-- No concStep ever records a denial: threads either snapshot, insert the
first-request row, or fail open through the primary-key conflict or the
TypeError of line 273, all of which return an allowed pair. -/
theorem concStep_no_denial (now : Int) (s : RateRow × (Nat → ThreadSt)) (a : Nat)
    (hs : ∀ t, (((s.2 t).res.map Prod.fst).getD true) = true) (t' : Nat) :
    ((((concStep now s a).2 t').res.map Prod.fst).getD true) = true := by
  rcases hsnap : (s.2 a).snap with _ | snapshot
  · by_cases ht : t' = a <;> simp [concStep, hsnap, ht, hs t']
  · rcases hres : (s.2 a).res with _ | r
    · rcases snapshot with _ | record
      · rcases hrow : s.1 with _ | rec2
        · by_cases ht : t' = a <;> simp [concStep, hsnap, hres, hrow, ht, hs t']
        · by_cases ht : t' = a <;> simp [concStep, hsnap, hres, hrow, ht, hs t']
      · by_cases ht : t' = a <;> simp [concStep, hsnap, hres, ht, hs t']
    · simp [concStep, hsnap, hres, hs t']

/-- Under every schedule, every finished thread holds an allowed result. -/
theorem runSchedule_no_denial (now : Int) (sched : List Nat) :
    ∀ t : Nat, ((((runSchedule now sched).2 t).res.map Prod.fst).getD true) = true := by
  unfold runSchedule
  generalize hinit : ((none, fun _ => threadInit) : RateRow × (Nat → ThreadSt)) = s
  have hs : ∀ t, (((s.2 t).res.map Prod.fst).getD true) = true := by
    intro t
    rw [← hinit]
    simp [threadInit]
  clear hinit
  induction sched generalizing s with
  | nil => exact hs
  | cons a sched ih =>
    simp only [List.foldl_cons]
    exact ih (concStep now s a) (fun t' => concStep_no_denial now s a hs t')

/-! The claims. -/

/-- C1, counterexample: with hourly limit 10 and K = 1, the eleven calls of
schedule c1Schedule for a fresh identity all come back allowed: the first
inserts and admits, and every later call reads the existing record and then
fails open through the deterministic TypeError of src/app.py line 273
(naive datetime.now() minus the timezone-aware timestamptz), never reaching
a limit check.  Eleven calls are admitted, not the claimed exact
max_requests_per_hour; a fortiori the final write is not an atomic
conditional update (no write after the first INSERT ever happens). -/
theorem c1_eleven_calls_all_admitted :
    admittedCount ((runSchedule 0 c1Schedule).2) (max_requests_per_hour + 1)
        = max_requests_per_hour + 1
    ∧ admittedCount ((runSchedule 0 c1Schedule).2) (max_requests_per_hour + 1)
        ≠ max_requests_per_hour := by
  decide

/-- C1, amended: firing max_requests_per_hour + k calls for a fresh identity
admits all of them, whatever the interleaving: sequentially every one of the
10 + k calls comes back allowed, and under an arbitrary schedule no thread
ever finishes with a denied result (its result flag, when present, is
always True). -/
theorem c1_all_admitted :
    (∀ k : Nat, (runSeq (max_requests_per_hour + k)).2 = max_requests_per_hour + k)
    ∧ (∀ (now : Int) (sched : List Nat) (t : Nat),
        ((((runSchedule now sched).2 t).res.map Prod.fst).getD true) = true) := by
  constructor
  · intro k
    have h : max_requests_per_hour + k = (9 + k) + 1 := by
      simp only [max_requests_per_hour]
      omega
    rw [h, runSeq_all_admit (9 + k)]
  · intro now sched t
    exact runSchedule_no_denial now sched t

/-- C2: when no store handle can be acquired, check_rate_limit returns the
degraded pair (True, "Database unavailable - allowing request"), which
differs from the value returned by every check that ran against the store
and came back allowed (those carry "First request" or the in-call failure
message "Rate limit check failed - allowing request"), so the no-handle
degraded admit is observably distinct from any admit of a completed
check. -/
theorem c2_degraded_distinct (row rowS : RateRow) (now nowS : Int) (s : String)
    (h : (check_rate_limit noFaults true rowS nowS).result = some (true, s)) :
    (check_rate_limit noFaults false row now).result
        = some (true, "Database unavailable - allowing request")
    ∧ (check_rate_limit noFaults false row now).result
        ≠ (check_rate_limit noFaults true rowS nowS).result := by
  have hs : s = "First request" ∨ s = "Rate limit check failed - allowing request" := by
    cases rowS with
    | none =>
      simp [check_rate_limit, noFaults] at h
      exact Or.inl h.symm
    | some record =>
      simp [check_rate_limit, noFaults] at h
      exact Or.inr h.symm
  have hres : (check_rate_limit noFaults false row now).result
      = some (true, "Database unavailable - allowing request") := rfl
  refine ⟨hres, ?_⟩
  rw [hres, h]
  rcases hs with hs | hs <;> subst hs <;> decide

/-- C2 witness: degraded value versus the first-request admit value at
concrete inputs. -/
theorem c2_degraded_distinct_witness :
    (check_rate_limit noFaults false none 0).result
        = some (true, "Database unavailable - allowing request")
    ∧ (check_rate_limit noFaults false none 0).result
        ≠ (check_rate_limit noFaults true none 0).result :=
  c2_degraded_distinct none none 0 0 "First request" rfl

/-- C3, code bug: the first call for an identity with no record does insert
counters 1 and 1 with both window starts at the call time and admits with
"First request", as the claim says.  But every later call for that identity
finds the record and raises TypeError at src/app.py line 273 (naive
datetime.now() minus the timezone-aware timestamptz), failing open with the
degraded message and writing nothing — it is not a normal admit and the
counters never advance — and the (N+1)-th call at N = hourly_limit is also
admitted, never denied: eleven sequential calls all come back allowed. -/
theorem c3_limiter_dead :
    (check_rate_limit noFaults true none 0).result = some (true, "First request")
    ∧ (check_rate_limit noFaults true none 0).row = some ⟨1, 1, 0, 0⟩
    ∧ (check_rate_limit noFaults true (some ⟨1, 1, 0, 0⟩) 3).result
        = some (true, "Rate limit check failed - allowing request")
    ∧ (check_rate_limit noFaults true (some ⟨1, 1, 0, 0⟩) 3).row = some ⟨1, 1, 0, 0⟩
    ∧ (runSeq (max_requests_per_hour + 1)).2 = max_requests_per_hour + 1 := by
  decide

/-- C4: whenever an executed store read or write raises inside
check_rate_limit, the operation is not retried (every store operation is
started at most once), the call returns the degraded admission pair
(True, "Rate limit check failed - allowing request"), no exception reaches
the caller, and the handle is released. -/
theorem c4_error_fail_open (fails : StoreOp → Bool) (conn : Bool) (row : RateRow) (now : Int)
    (h : (check_rate_limit fails conn row now).rwErrored = true) :
    (check_rate_limit fails conn row now).result
        = some (true, "Rate limit check failed - allowing request")
    ∧ (check_rate_limit fails conn row now).result ≠ none
    ∧ (check_rate_limit fails conn row now).released = true
    ∧ (check_rate_limit fails conn row now).attempts StoreOp.selectRow ≤ 1
    ∧ (check_rate_limit fails conn row now).attempts StoreOp.insertRow ≤ 1
    ∧ (check_rate_limit fails conn row now).attempts StoreOp.updateRow ≤ 1
    ∧ (check_rate_limit fails conn row now).attempts StoreOp.commitTxn ≤ 1 := by
  have hrd := rw_error_degraded fails conn row now h
  refine ⟨hrd.1, ?_, hrd.2, attempts_le_one fails conn row now StoreOp.selectRow,
    attempts_le_one fails conn row now StoreOp.insertRow,
    attempts_le_one fails conn row now StoreOp.updateRow,
    attempts_le_one fails conn row now StoreOp.commitTxn⟩
  rw [hrd.1]
  simp

/-- C4 witness: a failing SELECT at a concrete input. -/
theorem c4_error_fail_open_witness :
    (check_rate_limit failSelectOnly true none 0).rwErrored = true
    ∧ (check_rate_limit failSelectOnly true none 0).result
        = some (true, "Rate limit check failed - allowing request")
    ∧ (check_rate_limit failSelectOnly true none 0).released = true
    ∧ (check_rate_limit failSelectOnly true none 0).attempts StoreOp.selectRow ≤ 1 := by
  have h := c4_error_fail_open failSelectOnly true none 0 rfl
  exact ⟨rfl, h.1, h.2.2.1, h.2.2.2.1⟩

/-- C5, code bug: the window resets of src/app.py lines 272-280 never
execute, because line 273 raises TypeError (naive datetime.now() minus the
timezone-aware timestamptz) before any comparison.  The claimed 61-minute
rollover scenario (hourly count at the limit, hour window started 3660
seconds ago, daily budget live) is not admitted normally with hourly count
persisted as 1: it returns the degraded admission and persists nothing,
leaving the stale counters 10 and 7 in place. -/
theorem c5_reset_unreachable :
    (check_rate_limit noFaults true (some ⟨10, 7, 0, 0⟩) 3660).result
        = some (true, "Rate limit check failed - allowing request")
    ∧ (check_rate_limit noFaults true (some ⟨10, 7, 0, 0⟩) 3660).row
        = some ⟨10, 7, 0, 0⟩ := by
  decide

/-- C6, code bug: the limit checks and denial messages of src/app.py
lines 283-289 are dead code — line 273 raises TypeError before them on
every existing-record call — so the program never produces either denial,
let alone an ordered pair of them with a remaining-minutes estimate.  A
record past both limits, 600 seconds into a live hour window, comes back
allowed with the degraded message and the handle released. -/
theorem c6_denials_unreachable :
    (check_rate_limit noFaults true (some ⟨10, 50, 0, 0⟩) 600).result
        = some (true, "Rate limit check failed - allowing request")
    ∧ (check_rate_limit noFaults true (some ⟨10, 50, 0, 0⟩) 600).released = true := by
  decide

/-- C7, code bug: the deny-before-write structure the claim describes
(src/app.py lines 283-296) is dead code — no call can return Deny, because
line 273 raises TypeError on every existing-record call before the limit
checks.  At an input the specified algorithm must deny (a record at the
hourly limit inside a live hour window), the program instead returns the
degraded admission; and on every existing-record call the stored row is
left exactly as read (the error path rolls back and never reaches the
UPDATE), so nothing, resets included, is ever persisted after the first
insert. -/
theorem c7_no_deny_no_write :
    (check_rate_limit noFaults true (some ⟨10, 5, 0, 0⟩) 600).result
        = some (true, "Rate limit check failed - allowing request")
    ∧ (check_rate_limit noFaults true (some ⟨10, 5, 0, 0⟩) 600).row = some ⟨10, 5, 0, 0⟩
    ∧ ∀ (record : RateRecord) (now : Int),
        (check_rate_limit noFaults true (some record) now).row = some record := by
  refine ⟨by decide, by decide, ?_⟩
  intro record now
  rfl

/-- C8, code bug: on the exit path where conn.cursor() raises (a pooled
handle can arrive already closed), the finally block of check_rate_limit
(src/app.py lines 306-308) evaluates cursor.close() with the local cursor
never assigned, raising UnboundLocalError; return_db_connection(conn) on
line 308 is skipped, so the successfully acquired handle is never released
and the exception propagates.  The fault-free run does release, and the
pool bounds of lines 70-71 are 1 and 20 as the claim states. -/
theorem c8_release_skipped_on_cursor_error :
    (check_rate_limit failCursorOnly true (some ⟨5, 5, 0, 0⟩) 0).result = none
    ∧ (check_rate_limit failCursorOnly true (some ⟨5, 5, 0, 0⟩) 0).released = false
    ∧ (check_rate_limit failCursorOnly true (some ⟨5, 5, 0, 0⟩) 0).attempts
        StoreOp.cursorCreate = 1
    ∧ (check_rate_limit noFaults true (some ⟨5, 5, 0, 0⟩) 0).released = true
    ∧ pool_minconn = 1 ∧ pool_maxconn = 20 := by
  decide

/-- C9, code bug: log_analytics catches INSERT and commit errors and returns
the failed flag with the handle released, and returns the failed flag when
no handle could be acquired; but on the store state where conn.cursor()
raises (src/app.py line 388), the finally block (lines 411-413) references
the unbound local cursor, raises UnboundLocalError, discards the pending
return False, and propagates the exception to the caller, so the claimed
no-propagation-for-all-store-states fails. -/
theorem c9_propagation_on_cursor_error :
    (log_analytics failCursorLA true).result = none
    ∧ (log_analytics failCursorLA true).released = false
    ∧ (log_analytics failInsertLA true).result = some false
    ∧ (log_analytics failInsertLA true).released = true
    ∧ (log_analytics noFaultsLA false).result = some false
    ∧ (log_analytics noFaultsLA true).result = some true := by
  decide

/-- C10, counterexample: with connection configuration present but the store
unreachable, DatabaseMonitor.get_connection catches the connect failure and
returns None (src/db_monitor.py lines 46-52), every command swallows that,
and main falls off its end, so the process exits with code 0 rather than
the claimed non-zero code. -/
theorem c10_unreachable_exit_zero :
    (monitor_main ⟨true, false⟩ ["rates"]).1 = 0
    ∧ (monitor_main ⟨true, false⟩ []).1 = 0
    ∧ get_connection ⟨true, false⟩ = none := by
  decide

/-- C10, amended: the reporting entry point exits with code 0 on success and
also with code 0 when the store is unreachable at startup (the failure is
printed, not escalated); the only non-zero exit arises when no connection
configuration is found, in which case the DatabaseMonitor constructor
raises ValueError uncaught and the process exits with code 1. -/
theorem c10_exit_code (env : MonitorEnv) (argv : List String) :
    (monitor_main env argv).1 = if env.configPresent then 0 else 1 := by
  rcases env with ⟨cp, sr⟩
  cases cp <;> cases argv <;> simp [monitor_main] <;> split_ifs <;> rfl

end LWM
